import Mathlib

/-!
Shallow embedding of the Cloudflare dynamic-DNS updater
(`src/index.ts`, `src/services/cloudflare.ts`, `src/utils/ip.ts`,
`src/utils/constants.ts`).

Conventions:
* JavaScript strings are Lean `String`s; the JS operations `includes`,
  `endsWith` and `split` are modelled over the underlying character list
  (`String.data`) so that they compute by structural recursion.
* JavaScript truthiness on optional strings (`if (s)`) is modelled by
  `truthy`: an absent value (`undefined`) and the empty string are both
  falsy.
* `async` provider calls become pure functions over explicitly passed
  response data; mutable module state (ID caches, rate window) is threaded
  explicitly.
* `console.log` / `console.warn` / `console.error` output is not modelled,
  except that provider error payloads are carried inside error values.
-/

namespace DDNS

/-- JS truthiness for a possibly-absent string (`undefined` and `""` are
falsy). -/
def truthy : Option String → Bool
  | none => false
  | some s => !(s == "")

/-- JS `s.includes(c)` for a single-character needle. -/
def jsIncludes (s : String) (c : Char) : Bool :=
  s.data.contains c

/-- JS `s.endsWith(t)`. -/
def jsEndsWith (s t : String) : Bool :=
  t.data.isSuffixOf s.data

/-- Split a character list at every occurrence of `sep`
(JS `String.prototype.split` with a single-character separator). -/
def splitChars (sep : Char) : List Char → List (List Char)
  | [] => [[]]
  | c :: cs =>
    match splitChars sep cs with
    | [] => [[]]
    | g :: gs => if c == sep then [] :: g :: gs else (c :: g) :: gs

/-- JS `s.split(sep)` for a single-character separator. -/
def jsSplit (sep : Char) (s : String) : List String :=
  (splitChars sep s.data).map String.mk

/-! ### Constants (`src/utils/constants.ts`) -/

def DNS_RECORD_TYPE : String := "A"

def DNS_RECORD_TTL : Nat := 1

def DNS_RECORD_PROXIED : Bool := false

/-! ### `validateAndFixRecordName` (`src/utils/ip.ts`) -/

/-- `validateAndFixRecordName(recordName, zoneName)`: if the record name has
no `'.'` or does not end with the zone name, append the zone name (joined
with `'.'` unless the record name already ends with `'.'`); otherwise return
it unchanged. -/
def validateAndFixRecordName (recordName zoneName : String) : String :=
  if !(jsIncludes recordName '.') || !(jsEndsWith recordName zoneName) then
    if jsEndsWith recordName "." then
      recordName ++ zoneName
    else
      recordName ++ "." ++ zoneName
  else
    recordName

/-! ### Provider response shapes (`src/types/index.ts`) -/

/-- One entry of the `errors[]` array of a Cloudflare JSON response. -/
structure ProviderError where
  code : Int
  message : String
deriving Repr, DecidableEq

/-- One entry of `GET /zones` (`CloudflareZone.result`). -/
structure Zone where
  id : String
  name : String
deriving Repr, DecidableEq

/-- Decoded `GET /zones` body (`CloudflareResponse & CloudflareZone`). -/
structure ZonesData where
  success : Bool
  errors : List ProviderError
  result : List Zone
deriving Repr, DecidableEq

/-- One entry of `GET /zones/{id}/dns_records`
(`CloudflareDNSRecords.result`). -/
structure DNSRecordEntry where
  id : String
  name : String
  type : String
deriving Repr, DecidableEq

/-- Decoded `GET /zones/{id}/dns_records` body
(`CloudflareResponse & CloudflareDNSRecords`). -/
structure RecordsData where
  success : Bool
  errors : List ProviderError
  result : List DNSRecordEntry
deriving Repr, DecidableEq

/-- Decoded `GET /zones/{id}/dns_records/{rid}` body
(`CloudflareResponse & CloudflareDNSRecord`); `content` is
`result.content`. -/
structure RecordData where
  success : Bool
  errors : List ProviderError
  content : String
deriving Repr, DecidableEq

/-- Decoded `PUT /zones/{id}/dns_records/{rid}` body
(`CloudflareResponse`). -/
structure UpdateData where
  success : Bool
  errors : List ProviderError
deriving Repr, DecidableEq

/-- The distinguishable failures thrown by the resolution / record
operations of `src/services/cloudflare.ts`. `apiFailure` carries the
provider's `errors[]` array, which the code logs verbatim before
throwing. -/
inductive ResolveError where
  | apiFailure (errors : List ProviderError)
  | zoneNotFound (zoneName : String)
  | recordNotFound (recordName : String) (zoneId : String)
deriving Repr, DecidableEq

/-! ### ID caches and resolution (`src/services/cloudflare.ts`)

`zoneIdCache` / `recordIdCache` are JS `Map<string, string>` objects;
they are modelled as association lists where `Map.set` conses a fresh
binding in front (lookup finds the newest binding, as in a `Map`).

Each operation takes the HTTP status and decoded body of the response its
single provider call would yield; the status is available to the code but
never consulted after `makeRequest` returns, and the body is only decoded
when a provider call is actually issued.  Each operation returns its
result, the updated cache, and the number of provider calls issued
(`0` or `1`). -/

/-- `getZoneId(zoneName)`: serve from `zoneIdCache` when the cached value
is truthy; else serve and cache a truthy `CF_ZONE_ID`; else issue
`GET /zones`, fail on `success:false`, find the zone with the exactly
matching name, fail with zone-not-found when absent, cache and return its
`id`. -/
def getZoneId (cfZoneId : Option String) (status : Nat) (zones : ZonesData)
    (zoneName : String) (cache : List (String × String)) :
    Except ResolveError String × List (String × String) × Nat :=
  let cachedZoneId := cache.lookup zoneName
  if truthy cachedZoneId then
    (.ok (cachedZoneId.getD ""), cache, 0)
  else if truthy cfZoneId then
    (.ok (cfZoneId.getD ""), (zoneName, cfZoneId.getD "") :: cache, 0)
  else
    let _ := status
    if !zones.success then
      (.error (.apiFailure zones.errors), cache, 1)
    else
      match zones.result.find? (fun z => z.name == zoneName) with
      | none => (.error (.zoneNotFound zoneName), cache, 1)
      | some zone => (.ok zone.id, (zoneName, zone.id) :: cache, 1)

/-- `getRecordId(zoneId, recordName)`: same pattern as `getZoneId`, keyed
by the composite `` `${zoneId}:${recordName}` `` and filtered by
`type === DNS_RECORD_TYPE`. -/
def getRecordId (cfRecordId : Option String) (status : Nat)
    (records : RecordsData) (zoneId recordName : String)
    (cache : List (String × String)) :
    Except ResolveError String × List (String × String) × Nat :=
  let cacheKey := zoneId ++ ":" ++ recordName
  let cachedRecordId := cache.lookup cacheKey
  if truthy cachedRecordId then
    (.ok (cachedRecordId.getD ""), cache, 0)
  else if truthy cfRecordId then
    (.ok (cfRecordId.getD ""), (cacheKey, cfRecordId.getD "") :: cache, 0)
  else
    let _ := status
    if !records.success then
      (.error (.apiFailure records.errors), cache, 1)
    else
      match records.result.find?
          (fun r => r.name == recordName && r.type == DNS_RECORD_TYPE) with
      | none => (.error (.recordNotFound recordName zoneId), cache, 1)
      | some record => (.ok record.id, (cacheKey, record.id) :: cache, 1)

/-- `getCurrentIP(zoneId, recordId)`: `GET` the record, fail on
`success:false`, else return `result.content`. -/
def getCurrentIP (status : Nat) (data : RecordData) :
    Except ResolveError String :=
  let _ := status
  if !data.success then
    .error (.apiFailure data.errors)
  else
    .ok data.content

/-- The JSON body of the `PUT` issued by `updateDNS`; `name` is `Option`
because `JSON.stringify` drops an `undefined` `CF_RECORD_NAME`. -/
structure DNSUpdateBody where
  type : String
  name : Option String
  content : String
  ttl : Nat
  proxied : Bool
deriving Repr, DecidableEq

/-- The request body `updateDNS(zoneId, recordId, ip)` sends: fixed type,
TTL and proxied flag, `content` = the new IP, and `name` = the
`CF_RECORD_NAME` environment variable (the record being updated is
identified only by the URL's `zoneId`/`recordId`; its own name is not a
parameter of `updateDNS`). -/
def updateDNSBody (cfRecordName : Option String) (ip : String) :
    DNSUpdateBody :=
  { type := DNS_RECORD_TYPE
    name := cfRecordName
    content := ip
    ttl := DNS_RECORD_TTL
    proxied := DNS_RECORD_PROXIED }

/-- `updateDNS(zoneId, recordId, ip)`: `PUT` the body above, fail on
`success:false`, else return unit. -/
def updateDNS (status : Nat) (data : UpdateData) : Except ResolveError Unit :=
  let _ := status
  if !data.success then
    .error (.apiFailure data.errors)
  else
    .ok ()

/-- The provider zone list used by the C3 counterexample: a single zone
whose provider-assigned ID is the empty string. -/
def c3Zones : ZonesData :=
  { success := true, errors := [], result := [⟨"", "a.com"⟩] }

/-! ### Reconciliation (`updateDNSRecords` in `src/index.ts`) -/

/-- One managed DNS record (`DNSRecord` in `src/index.ts`). -/
structure DNSRecord where
  recordName : String
  zoneName : String
  zoneId : String
  recordId : String
deriving Repr, DecidableEq

/-- One `PUT /zones/{zoneId}/dns_records/{recordId}` update issued against
the provider, with the `content` it carries. -/
structure UpdateCall where
  zoneId : String
  recordId : String
  content : String
deriving Repr, DecidableEq

/-- One record's branch of `updateDNSRecords`: fetch the published content
via `getCurrentIP` (given the status and decoded body of that `GET`); a
fetch failure is caught and contributes no update; if the observed
`publicIP` differs from the published one, issue exactly one `updateDNS`
call with the new content; else issue none.  Returns the update calls
issued for this record. -/
def reconcileRecord (record : DNSRecord) (publicIP : String)
    (status : Nat) (data : RecordData) : List UpdateCall :=
  match getCurrentIP status data with
  | .error _ => []
  | .ok currentIP =>
      if publicIP != currentIP then
        [⟨record.zoneId, record.recordId, publicIP⟩]
      else
        []

/-- `updateDNSRecords(dnsRecords, publicIP)`: reconcile every managed
record against the same observed IP; `fetched` gives the status and decoded
body of each record's `GET`.  Returns all update calls issued this cycle. -/
def updateDNSRecords (dnsRecords : List DNSRecord) (publicIP : String)
    (fetched : DNSRecord → Nat × RecordData) : List UpdateCall :=
  dnsRecords.flatMap fun record =>
    reconcileRecord record publicIP (fetched record).1 (fetched record).2

/-! ### Rate-limited request gateway (`makeRequest` in
`src/services/cloudflare.ts`)

Time is an idealized millisecond clock: `Date.now()` reads it, `setTimeout`
sleeps advance it by exactly the requested wait.  Each fetch attempt is
described by an oracle `attempts : Nat → FetchOutcome` giving the outcome
and duration of the `n`-th `fetch`; the `cf-ratelimit-remaining` low-water
warning (log only) is not modelled. -/

def RATE_LIMIT_WINDOW : Nat := 5 * 60 * 1000

def MAX_REQUESTS_PER_WINDOW : Nat := 1000

def RETRY_DELAY : Nat := 1000

def MAX_RETRIES : Nat := 3

/-- The module-level rate-limiting state (`requestCount`, `windowStart`). -/
structure RateState where
  requestCount : Nat
  windowStart : Nat
deriving Repr, DecidableEq

/-- Outcome of one `fetch` call: a network-level error (rejected promise),
or a response with its HTTP status and optional `retry-after` header (in
seconds, already parsed); `dur` is the round-trip duration. -/
inductive FetchOutcome where
  | netError (dur : Nat)
  | resp (status : Nat) (retryAfter : Option Nat) (dur : Nat)
deriving Repr, DecidableEq

/-- A request actually issued: the clock value and the value of
`requestCount` at the moment `fetch` is called (just after the
increment). -/
structure IssueEvent where
  time : Nat
  count : Nat
deriving Repr, DecidableEq

/-- The two distinguishable failures `makeRequest` can throw: the explicit
`Max retries exceeded for rate limit`, or the rethrown network error. -/
inductive GatewayError where
  | maxRetriesRateLimit
  | netFailure
deriving Repr, DecidableEq

/-- What a `makeRequest` run produces: the returned attempt's index (or the
error thrown), the final rate state and clock, and the trace of issued
requests. -/
structure GatewayOutcome where
  result : Except GatewayError Nat
  state : RateState
  clock : Nat
  events : List IssueEvent
deriving Repr

/-- Lines 45–49: reset the window when it has elapsed. -/
def rateReset (now : Nat) (s : RateState) : RateState :=
  if RATE_LIMIT_WINDOW ≤ now - s.windowStart then ⟨0, now⟩ else s

/-- Lines 45–58: window reset, then — if the counter is at/above the
ceiling — sleep for the remainder of the window and reset.  Returns the
state and the clock at which the request proceeds. -/
def rateCheck (now : Nat) (s : RateState) : RateState × Nat :=
  if MAX_REQUESTS_PER_WINDOW ≤ (rateReset now s).requestCount then
    (⟨0, now + (RATE_LIMIT_WINDOW - (now - (rateReset now s).windowStart))⟩,
      now + (RATE_LIMIT_WINDOW - (now - (rateReset now s).windowStart)))
  else
    (rateReset now s, now)

/-- Line 61 (`requestCount++`): the rate state at the moment the request
is issued. -/
def issueState (now : Nat) (s : RateState) : RateState :=
  ⟨(rateCheck now s).1.requestCount + 1, (rateCheck now s).1.windowStart⟩

/-- The issue event for a fetch entered at clock `now` in state `s`. -/
def issueEventAt (now : Nat) (s : RateState) : IssueEvent :=
  ⟨(rateCheck now s).2, (rateCheck now s).1.requestCount + 1⟩

/-- Prepend this iteration's issue event to the outcome of the rest of the
loop. -/
def withEvent (ev : IssueEvent) (r : GatewayOutcome) : GatewayOutcome :=
  ⟨r.result, r.state, r.clock, ev :: r.events⟩

/-- Line 74: the wait after a 429 — the advertised `retry-after * 1000` ms
when the header is present, else `RETRY_DELAY * 2^retries`. -/
def backoff429 (retryAfter : Option Nat) (retries : Nat) : Nat :=
  match retryAfter with
  | some ra => ra * 1000
  | none => RETRY_DELAY * 2 ^ retries

/-- The `while (true)` body of `makeRequest`, with `k` the index of the
next fetch attempt.  On a 429 response: sleep `backoff429`, increment
`retries` and throw past the retry ceiling (the inner throw is rethrown by
the catch), else loop.  On a network error: rethrow at the ceiling, else
increment `retries`, sleep `RETRY_DELAY * 2^retries` (post-increment) and
loop.  Any other status returns the response. -/
def makeRequestLoop (attempts : Nat → FetchOutcome) (k now : Nat)
    (s : RateState) (retries : Nat) : GatewayOutcome :=
  match attempts k with
  | .netError dur =>
    if MAX_RETRIES ≤ retries then
      ⟨.error .netFailure, issueState now s, (rateCheck now s).2 + dur,
        [issueEventAt now s]⟩
    else
      withEvent (issueEventAt now s)
        (makeRequestLoop attempts (k + 1)
          ((rateCheck now s).2 + dur + RETRY_DELAY * 2 ^ (retries + 1))
          (issueState now s) (retries + 1))
  | .resp status retryAfter dur =>
    if status == 429 then
      if MAX_RETRIES ≤ retries + 1 then
        ⟨.error .maxRetriesRateLimit, issueState now s,
          (rateCheck now s).2 + dur + backoff429 retryAfter retries,
          [issueEventAt now s]⟩
      else
        withEvent (issueEventAt now s)
          (makeRequestLoop attempts (k + 1)
            ((rateCheck now s).2 + dur + backoff429 retryAfter retries)
            (issueState now s) (retries + 1))
    else
      ⟨.ok k, issueState now s, (rateCheck now s).2 + dur,
        [issueEventAt now s]⟩
termination_by MAX_RETRIES - retries
decreasing_by all_goals omega

/-- `makeRequest(url, options)`: run the loop from `retries = 0`. -/
def makeRequest (attempts : Nat → FetchOutcome) (now : Nat)
    (s : RateState) : GatewayOutcome :=
  makeRequestLoop attempts 0 now s 0

/-! ### Initialization (`initializeDNSRecords` in `src/index.ts`) -/

/-- The observable outcome of `initializeDNSRecords`: either the process
terminated (`process.exit`), or the managed set was built. -/
inductive InitOutcome where
  | exited (code : Nat)
  | records (dnsRecords : List DNSRecord)
deriving Repr, DecidableEq

/-- Zone-name derivation of `initializeDNSRecords`: for a two-part name the
whole name, otherwise the last two parts joined with `'.'`. -/
def deriveZoneName (recordName : String) : String :=
  let parts := jsSplit '.' recordName
  if parts.length == 2 then recordName
  else String.intercalate "." (parts.drop (parts.length - 2))

/-- The per-record loop of `initializeDNSRecords`, threading the module
level zone/record ID caches of `src/services/cloudflare.ts` and the
accumulated managed set.  A name with fewer than two parts throws outside
the `try` (caught by `main().catch`, which exits 1).  Inside the `try`,
resolution failures — `getZoneId` / `getRecordId` throwing, or returning a
falsy ID — are caught by the per-record `catch`, which logs and calls
`process.exit(1)`.  `zones` is the decoded `GET /zones` body and
`recordsOf zoneId` the decoded `GET /zones/{zoneId}/dns_records` body. -/
def initLoop (cfZoneId cfRecordId : Option String) (zones : ZonesData)
    (recordsOf : String → RecordsData) :
    List String → List (String × String) → List (String × String) →
    List DNSRecord → InitOutcome
  | [], _, _, acc => .records acc
  | recordName :: rest, zc, rc, acc =>
    if (jsSplit '.' recordName).length < 2 then
      .exited 1
    else
      let zoneName := deriveZoneName recordName
      let validated := validateAndFixRecordName recordName zoneName
      match getZoneId cfZoneId 200 zones zoneName zc with
      | (.error _, _) => .exited 1
      | (.ok zoneId, zc', _) =>
        if !(truthy (some zoneId)) then
          .exited 1
        else
          match getRecordId cfRecordId 200 (recordsOf zoneId) zoneId validated rc with
          | (.error _, _) => .exited 1
          | (.ok recordId, rc', _) =>
            if !(truthy (some recordId)) then
              .exited 1
            else
              initLoop cfZoneId cfRecordId zones recordsOf rest zc' rc'
                (acc ++ [⟨validated, zoneName, zoneId, recordId⟩])

/-- `initializeDNSRecords()` over the already split and trimmed
`CF_RECORD_NAMES` list, starting from empty caches and an empty managed
set. -/
def initializeDNSRecords (cfZoneId cfRecordId : Option String)
    (zones : ZonesData) (recordsOf : String → RecordsData)
    (recordNames : List String) : InitOutcome :=
  initLoop cfZoneId cfRecordId zones recordsOf recordNames [] [] []

/-- Provider zone list for the C1 scenario: only `good.org` exists. -/
def c1Zones : ZonesData :=
  { success := true, errors := [], result := [⟨"zg", "good.org"⟩] }

/-- Provider record lists for the C1 scenario: zone `zg` holds the A record
`www.good.org`. -/
def c1RecordsOf : String → RecordsData := fun zoneId =>
  if zoneId == "zg" then
    { success := true, errors := [], result := [⟨"rg", "www.good.org", "A"⟩] }
  else
    { success := true, errors := [], result := [] }

/-! ### Theorems -/

/-- **C5** — `validateAndFixRecordName` is a pure total function:
`("www","example.com") ↦ "www.example.com"`,
`("www.example.com","example.com") ↦ "www.example.com"` unchanged,
`("www.","example.com") ↦ "www.example.com"`; in general a record name that
contains a separator and ends with the zone name is returned unchanged, and
otherwise the zone name is appended, joined with `'.'` unless the record
name already ends with `'.'`. -/
theorem c5_validateAndFix_qualification :
    validateAndFixRecordName "www" "example.com" = "www.example.com"
    ∧ validateAndFixRecordName "www.example.com" "example.com" = "www.example.com"
    ∧ validateAndFixRecordName "www." "example.com" = "www.example.com"
    ∧ ∀ r z : String,
        ((jsIncludes r '.' && jsEndsWith r z) = true → validateAndFixRecordName r z = r)
        ∧ ((jsIncludes r '.' && jsEndsWith r z) = false →
            validateAndFixRecordName r z =
              if jsEndsWith r "." then r ++ z else r ++ "." ++ z) := by
  refine ⟨by decide, by decide, by decide, fun r z => ⟨fun h => ?_, fun h => ?_⟩⟩
  · unfold validateAndFixRecordName
    simp only [Bool.and_eq_true] at h
    simp [h.1, h.2]
  · unfold validateAndFixRecordName
    simp only [Bool.and_eq_false_iff] at h
    rcases h with h | h <;> simp [h]

/-- Witness for C5 at concrete inputs, discharging both hypotheses. -/
theorem c5_validateAndFix_qualification_witness :
    validateAndFixRecordName "www.example.com" "example.com" = "www.example.com"
    ∧ validateAndFixRecordName "api" "example.org" = "api.example.org" := by
  constructor
  · exact (c5_validateAndFix_qualification.2.2.2 "www.example.com" "example.com").1 (by decide)
  · rw [(c5_validateAndFix_qualification.2.2.2 "api" "example.org").2 (by decide)]
    decide

/-- A `lookup` that returns a value found an actual binding. -/
theorem lookup_mem {α β : Type} [BEq α] [LawfulBEq α] {l : List (α × β)}
    {k : α} {v : β} (h : l.lookup k = some v) : (k, v) ∈ l := by
  induction l with
  | nil => simp [List.lookup] at h
  | cons p l ih =>
      obtain ⟨a, b⟩ := p
      rw [List.lookup_cons] at h
      by_cases hk : k == a
      · simp [hk] at h
        simp [eq_of_beq hk, h]
      · simp [hk] at h
        exact List.mem_cons_of_mem _ (ih h)

/-- **C8** — every provider operation fails, carrying the provider's
`errors[]` verbatim, whenever the decoded body has `success:false`,
regardless of the HTTP status (the status is quantified and never
consulted); conversely each operation's provider path returns a value only
when `success` is `true`.  For the two cached operations the provider path
is reached under a cache miss with the override variable unset. -/
theorem c8_success_false_always_fails (status : Nat) :
    (∀ (env : Option String) (zones : ZonesData) (name : String)
        (cache : List (String × String)),
      truthy (cache.lookup name) = false → truthy env = false →
      (zones.success = false →
        getZoneId env status zones name cache
          = (.error (.apiFailure zones.errors), cache, 1))
      ∧ (∀ r c n, getZoneId env status zones name cache = (.ok r, c, n) →
          zones.success = true))
    ∧ (∀ (env : Option String) (records : RecordsData) (zoneId name : String)
        (cache : List (String × String)),
      truthy (cache.lookup (zoneId ++ ":" ++ name)) = false → truthy env = false →
      (records.success = false →
        getRecordId env status records zoneId name cache
          = (.error (.apiFailure records.errors), cache, 1))
      ∧ (∀ r c n, getRecordId env status records zoneId name cache = (.ok r, c, n) →
          records.success = true))
    ∧ (∀ data : RecordData,
      (data.success = false →
        getCurrentIP status data = .error (.apiFailure data.errors))
      ∧ (∀ r, getCurrentIP status data = .ok r → data.success = true))
    ∧ (∀ data : UpdateData,
      (data.success = false →
        updateDNS status data = .error (.apiFailure data.errors))
      ∧ (∀ r, updateDNS status data = .ok r → data.success = true)) := by
  refine ⟨?_, ?_, ?_, ?_⟩
  · intro env zones name cache hc henv
    constructor
    · intro hs
      simp [getZoneId, hc, henv, hs]
    · intro r c n h
      by_contra hs
      simp only [Bool.not_eq_true] at hs
      simp [getZoneId, hc, henv, hs] at h
  · intro env records zoneId name cache hc henv
    constructor
    · intro hs
      simp [getRecordId, hc, henv, hs]
    · intro r c n h
      by_contra hs
      simp only [Bool.not_eq_true] at hs
      simp [getRecordId, hc, henv, hs] at h
  · intro data
    constructor
    · intro hs
      simp [getCurrentIP, hs]
    · intro r h
      by_contra hs
      simp only [Bool.not_eq_true] at hs
      simp [getCurrentIP, hs] at h
  · intro data
    constructor
    · intro hs
      simp [updateDNS, hs]
    · intro r h
      by_contra hs
      simp only [Bool.not_eq_true] at hs
      simp [updateDNS, hs] at h

/-- Witness for C8: the four failure branches and one converse, at concrete
inputs. -/
theorem c8_success_false_always_fails_witness :
    getZoneId none 200 ⟨false, [⟨1003, "bad token"⟩], []⟩ "example.com" []
      = (.error (.apiFailure [⟨1003, "bad token"⟩]), [], 1)
    ∧ getRecordId none 200 ⟨false, [⟨1003, "bad token"⟩], []⟩ "z1" "www.example.com" []
      = (.error (.apiFailure [⟨1003, "bad token"⟩]), [], 1)
    ∧ getCurrentIP 200 ⟨false, [⟨9109, "unauthorized"⟩], "1.2.3.4"⟩
      = .error (.apiFailure [⟨9109, "unauthorized"⟩])
    ∧ updateDNS 200 ⟨false, [⟨9109, "unauthorized"⟩]⟩
      = .error (.apiFailure [⟨9109, "unauthorized"⟩])
    ∧ (⟨true, [], "1.2.3.4"⟩ : RecordData).success = true := by
  refine ⟨?_, ?_, ?_, ?_, ?_⟩
  · exact ((c8_success_false_always_fails 200).1 none ⟨false, [⟨1003, "bad token"⟩], []⟩
      "example.com" [] (by decide) (by decide)).1 rfl
  · exact ((c8_success_false_always_fails 200).2.1 none ⟨false, [⟨1003, "bad token"⟩], []⟩
      "z1" "www.example.com" [] (by decide) (by decide)).1 rfl
  · exact ((c8_success_false_always_fails 200).2.2.1 ⟨false, [⟨9109, "unauthorized"⟩], "1.2.3.4"⟩).1 rfl
  · exact ((c8_success_false_always_fails 200).2.2.2 ⟨false, [⟨9109, "unauthorized"⟩]⟩).1 rfl
  · exact ((c8_success_false_always_fails 200).2.2.1 ⟨true, [], "1.2.3.4"⟩).2 "1.2.3.4" rfl

/-- **C10** — with `CF_ZONE_ID` set (to a truthy value) and the zone cache
containing only that value, `getZoneId` returns that single ID for every
zone name, issues zero provider calls, and caches the ID under the name it
was asked about; hence every zone of a multi-zone configuration resolves to
the same one ID. -/
theorem c10_zone_id_override (zid : String) (status : Nat)
    (zones : ZonesData) (name : String) (cache : List (String × String))
    (hz : zid ≠ "") (hc : ∀ p ∈ cache, p.2 = zid) :
    ∃ cache', getZoneId (some zid) status zones name cache = (.ok zid, cache', 0)
      ∧ cache'.lookup name = some zid
      ∧ ∀ p ∈ cache', p.2 = zid := by
  rcases hlook : cache.lookup name with _ | v
  · have htr2 : truthy (some zid) = true := by simp [truthy, hz]
    refine ⟨(name, zid) :: cache, ?_, ?_, ?_⟩
    · simp [getZoneId, hlook, htr2, show truthy none = false from rfl]
    · simp [List.lookup_cons]
    · intro p hp
      rcases List.mem_cons.mp hp with h | h
      · simp [h]
      · exact hc p h
  · have hv : v = zid := hc (name, v) (lookup_mem hlook)
    have htr : truthy (some zid) = true := by simp [truthy, hz]
    refine ⟨cache, ?_, by rw [hlook, hv], hc⟩
    simp [getZoneId, hlook, hv, htr]

/-- Witness for C10: a fresh cache and two distinct zone names both resolve
to the override ID with zero provider calls. -/
theorem c10_zone_id_override_witness :
    ∃ cache', getZoneId (some "zid-override") 200 ⟨true, [], []⟩ "example.com" []
        = (.ok "zid-override", cache', 0)
      ∧ cache'.lookup "example.com" = some "zid-override"
      ∧ ∀ p ∈ cache', p.2 = "zid-override" :=
  c10_zone_id_override "zid-override" 200 ⟨true, [], []⟩ "example.com" []
    (by decide) (by intro p hp; simp at hp)

/-- **C3 counterexample** — the claim "a repeated call with the same name
performs zero provider calls" fails when the resolved ID is the empty
string: `if (cachedZoneId)` treats the cached `""` as a miss, so the second
`getZoneId("a.com")` issues one provider call, not zero. -/
theorem c3_repeat_call_counterexample :
    (getZoneId none 200 c3Zones "a.com"
        (getZoneId none 200 c3Zones "a.com" []).2.1).2.2 = 1
    ∧ ((getZoneId none 200 c3Zones "a.com"
        (getZoneId none 200 c3Zones "a.com" []).2.1).2.2 == 0) = false := by
  constructor <;> decide

/-- **C3 (amended)** — the zone-ID cache is keyed by zone name: a cache hit
returns the value cached for the very name asked about with zero provider
calls; a miss resolves the name against the provider's own zone list
(independently of other names); and after a successful call returning a
*nonempty* ID, the repeated call with the same name issues zero provider
calls and returns the identical ID.  (JS truthiness re-resolves an
empty-string cache entry, hence the nonemptiness proviso.) -/
theorem c3_zone_cache_keyed (env : Option String) (status : Nat)
    (zones : ZonesData) (name : String) (cache : List (String × String))
    (henv : truthy env = false) :
    (∀ r, cache.lookup name = some r → r ≠ "" →
      getZoneId env status zones name cache = (.ok r, cache, 0))
    ∧ (cache.lookup name = none → zones.success = true →
        ∀ z, zones.result.find? (fun w => w.name == name) = some z →
          getZoneId env status zones name cache = (.ok z.id, (name, z.id) :: cache, 1))
    ∧ (∀ r cache' n, getZoneId env status zones name cache = (.ok r, cache', n) →
        r ≠ "" → getZoneId env status zones name cache' = (.ok r, cache', 0)) := by
  have hit : ∀ (c : List (String × String)) r, c.lookup name = some r → r ≠ "" →
      getZoneId env status zones name c = (.ok r, c, 0) := by
    intro c r hlook hr
    have htr : truthy (some r) = true := by simp [truthy, hr]
    simp [getZoneId, hlook, htr]
  refine ⟨hit cache, ?_, ?_⟩
  · intro hlook hs z hfind
    have htr : truthy (cache.lookup name) = false := by rw [hlook]; rfl
    simp [getZoneId, htr, henv, hs, hfind]
  · intro r cache' n h hr
    have hfinal : cache'.lookup name = some r := by
      rcases hlookc : cache.lookup name with _ | v
      · have htr : truthy (cache.lookup name) = false := by rw [hlookc]; rfl
        rcases hs : zones.success with _ | _
        · simp [getZoneId, htr, henv, hs] at h
        · rcases hfind : zones.result.find? (fun w => w.name == name) with _ | z
          · simp [getZoneId, htr, henv, hs, hfind] at h
          · simp [getZoneId, htr, henv, hs, hfind] at h
            rcases h with ⟨h1, h2, _⟩
            rw [← h2, ← h1]
            simp [List.lookup_cons]
      · rcases htv : truthy (some v) with _ | _
        · have hv : v = "" := by
            rcases hv : v == "" with _ | _ <;> simp [truthy, hv] at htv
            exact eq_of_beq hv
          rcases hs : zones.success with _ | _
          · simp [getZoneId, hlookc, htv, henv, hs] at h
          · rcases hfind : zones.result.find? (fun w => w.name == name) with _ | z
            · simp [getZoneId, hlookc, htv, henv, hs, hfind] at h
            · simp [getZoneId, hlookc, htv, henv, hs, hfind] at h
              rcases h with ⟨h1, h2, _⟩
              rw [← h2, ← h1]
              simp [List.lookup_cons]
        · have h' : getZoneId env status zones name cache = (.ok v, cache, 0) := by
            simp [getZoneId, hlookc, htv]
          rw [h'] at h
          simp only [Prod.mk.injEq, Except.ok.injEq] at h
          rcases h with ⟨h1, h2, _⟩
          rw [← h2, ← h1]
          exact hlookc
    exact hit cache' r hfinal hr

/-- Witness for C3: resolve a fresh name against a two-zone provider list,
then repeat the call on the updated cache: zero provider calls, identical
ID. -/
theorem c3_zone_cache_keyed_witness :
    getZoneId none 200 ⟨true, [], [⟨"z1", "a.com"⟩, ⟨"z2", "b.com"⟩]⟩ "b.com" []
      = (.ok "z2", [("b.com", "z2")], 1)
    ∧ getZoneId none 200 ⟨true, [], [⟨"z1", "a.com"⟩, ⟨"z2", "b.com"⟩]⟩ "b.com" [("b.com", "z2")]
      = (.ok "z2", [("b.com", "z2")], 0) := by
  have h := c3_zone_cache_keyed none 200 ⟨true, [], [⟨"z1", "a.com"⟩, ⟨"z2", "b.com"⟩]⟩
    "b.com" [] (by decide)
  have h1 := h.2.1 rfl rfl ⟨"z2", "b.com"⟩ (by decide)
  exact ⟨h1, h.2.2 "z2" [("b.com", "z2")] 1 h1 (by decide)⟩

/-- **C2** — the `PUT` body built by `updateDNS` carries the fixed type
`"A"`, `ttl` 1, `proxied` false and the observed IP as `content`, but its
`name` field is the `CF_RECORD_NAME` environment variable, identical for
every record being updated (and absent when that variable is unset) — not
the fully-qualified name of the record being reconciled.  Evaluated at the
failing input: two managed records `a.example.com` / `b.example.com` with
`CF_RECORD_NAME=a.example.com`, the body sent when updating
`b.example.com` names `a.example.com`. -/
theorem c2_update_body_name_is_env :
    (updateDNSBody (some "a.example.com") "1.2.3.4").type = "A"
    ∧ (updateDNSBody (some "a.example.com") "1.2.3.4").ttl = 1
    ∧ (updateDNSBody (some "a.example.com") "1.2.3.4").proxied = false
    ∧ (updateDNSBody (some "a.example.com") "1.2.3.4").content = "1.2.3.4"
    ∧ (updateDNSBody (some "a.example.com") "1.2.3.4").name = some "a.example.com"
    ∧ ((updateDNSBody (some "a.example.com") "1.2.3.4").name
        == some "b.example.com") = false
    ∧ (updateDNSBody none "1.2.3.4").name = none
    ∧ ∀ (cfRecordName : Option String) (ip : String),
        (updateDNSBody cfRecordName ip).name = cfRecordName := by
  refine ⟨rfl, rfl, rfl, rfl, rfl, by decide, rfl, fun env ip => rfl⟩

/-- **C4** — for every managed record and observed IP with a successfully
fetched published IP: zero update calls are issued when the published IP
equals the observed one, exactly one update call carrying the observed IP
as content when they differ, and an update is issued iff they differ. -/
theorem c4_reconcile_update_iff_differs (record : DNSRecord)
    (publicIP : String) (status : Nat) (data : RecordData)
    (hs : data.success = true) :
    (publicIP = data.content →
      reconcileRecord record publicIP status data = [])
    ∧ (publicIP ≠ data.content →
      reconcileRecord record publicIP status data
        = [⟨record.zoneId, record.recordId, publicIP⟩])
    ∧ (reconcileRecord record publicIP status data ≠ []
        ↔ publicIP ≠ data.content) := by
  have hfetch : getCurrentIP status data = .ok data.content := by
    simp [getCurrentIP, hs]
  refine ⟨fun h => ?_, fun h => ?_, ?_⟩
  · simp [reconcileRecord, hfetch, h]
  · simp [reconcileRecord, hfetch, h]
  · constructor
    · intro hne h
      simp [reconcileRecord, hfetch, h] at hne
    · intro h
      simp [reconcileRecord, hfetch, h]

/-- After the window check the counter is strictly below the ceiling. -/
theorem rateCheck_count_lt (now : Nat) (s : RateState) :
    (rateCheck now s).1.requestCount < MAX_REQUESTS_PER_WINDOW := by
  unfold rateCheck
  split
  · simp [MAX_REQUESTS_PER_WINDOW]
  · next h => exact Nat.lt_of_not_le h

/-- `rateCheck` either leaves the counter or resets it to zero. -/
theorem rateCheck_count_cases (now : Nat) (s : RateState) :
    (rateCheck now s).1.requestCount = 0
    ∨ (rateCheck now s).1.requestCount = s.requestCount := by
  unfold rateCheck rateReset
  split
  · left; rfl
  · split
    · left; rfl
    · right; rfl

/-- `rateCheck` never moves the clock backwards. -/
theorem rateCheck_time_ge (now : Nat) (s : RateState) :
    now ≤ (rateCheck now s).2 := by
  unfold rateCheck
  split
  · omega
  · omega

/-- With a counter strictly below the ceiling, `rateCheck` does not sleep:
the request proceeds at `now` with the merely window-reset state. -/
theorem rateCheck_no_wait {s : RateState} (now : Nat)
    (h : s.requestCount < MAX_REQUESTS_PER_WINDOW) :
    rateCheck now s = (rateReset now s, now) := by
  unfold rateCheck
  split
  · next hge =>
      exfalso
      unfold rateReset at hge
      split at hge
      · simp at hge
        omega
      · omega
  · rfl

/-- Every run of the loop issues at most `MAX_RETRIES - retries + 1` fetch
attempts. -/
theorem makeRequestLoop_events_le (attempts : Nat → FetchOutcome)
    (k now : Nat) (s : RateState) (retries : Nat) :
    (makeRequestLoop attempts k now s retries).events.length
      ≤ MAX_RETRIES - retries + 1 := by
  generalize hn : MAX_RETRIES - retries = n
  induction n generalizing k now s retries with
  | zero =>
      unfold makeRequestLoop
      split
      · split
        · simp
        · omega
      · split
        · split
          · simp
          · omega
        · simp
  | succ n ih =>
      unfold makeRequestLoop
      split
      · split
        · simp
        · simp only [withEvent, List.length_cons]
          rename_i dur heq h
          have := ih (k + 1)
            ((rateCheck now s).2 + dur + RETRY_DELAY * 2 ^ (retries + 1))
            (issueState now s) (retries + 1) (by omega)
          omega
      · split
        · split
          · simp
          · simp only [withEvent, List.length_cons]
            rename_i status retryAfter dur heq h429 h
            have := ih (k + 1)
              ((rateCheck now s).2 + dur + backoff429 retryAfter retries)
              (issueState now s) (retries + 1) (by omega)
            omega
        · simp

/-- Every issued request has a counter value within the ceiling. -/
theorem makeRequestLoop_count_le (attempts : Nat → FetchOutcome)
    (k now : Nat) (s : RateState) (retries : Nat) :
    ∀ ev ∈ (makeRequestLoop attempts k now s retries).events,
      ev.count ≤ MAX_REQUESTS_PER_WINDOW := by
  generalize hn : MAX_RETRIES - retries = n
  induction n generalizing k now s retries with
  | zero =>
      have hcnt := rateCheck_count_lt now s
      unfold makeRequestLoop
      split
      · split
        · intro ev hev
          simp at hev
          simp [hev, issueEventAt]
          omega
        · omega
      · split
        · split
          · intro ev hev
            simp at hev
            simp [hev, issueEventAt]
            omega
          · omega
        · intro ev hev
          simp at hev
          simp [hev, issueEventAt]
          omega
  | succ n ih =>
      have hcnt := rateCheck_count_lt now s
      unfold makeRequestLoop
      split
      · split
        · intro ev hev
          simp at hev
          simp [hev, issueEventAt]
          omega
        · rename_i dur heq h
          intro ev hev
          simp only [withEvent, List.mem_cons] at hev
          rcases hev with hev | hev
          · simp [hev, issueEventAt]
            omega
          · exact ih (k + 1)
              ((rateCheck now s).2 + dur + RETRY_DELAY * 2 ^ (retries + 1))
              (issueState now s) (retries + 1) (by omega) ev hev
      · split
        · split
          · intro ev hev
            simp at hev
            simp [hev, issueEventAt]
            omega
          · rename_i status retryAfter dur heq h429 h
            intro ev hev
            simp only [withEvent, List.mem_cons] at hev
            rcases hev with hev | hev
            · simp [hev, issueEventAt]
              omega
            · exact ih (k + 1)
                ((rateCheck now s).2 + dur + backoff429 retryAfter retries)
                (issueState now s) (retries + 1) (by omega) ev hev
        · intro ev hev
          simp at hev
          simp [hev, issueEventAt]
          omega

/-- A call whose every fetch attempt is a network error rethrows the
network failure after exactly `MAX_RETRIES - retries + 1` attempts. -/
theorem makeRequestLoop_netError_forever (attempts : Nat → FetchOutcome)
    (d : Nat → Nat) (hA : ∀ n, attempts n = .netError (d n))
    (k now : Nat) (s : RateState) (retries : Nat) :
    (makeRequestLoop attempts k now s retries).result = .error .netFailure
    ∧ (makeRequestLoop attempts k now s retries).events.length
        = MAX_RETRIES - retries + 1 := by
  generalize hn : MAX_RETRIES - retries = n
  induction n generalizing k now s retries with
  | zero =>
      unfold makeRequestLoop
      split
      · rw [if_pos (by omega)]
        simp
      · rename_i status retryAfter dur heq
        rw [hA k] at heq
        simp at heq
  | succ n ih =>
      unfold makeRequestLoop
      split
      · rename_i dur heq
        rw [if_neg (by omega)]
        have := ih (k + 1)
          ((rateCheck now s).2 + dur + RETRY_DELAY * 2 ^ (retries + 1))
          (issueState now s) (retries + 1) (by omega)
        simp only [withEvent, List.length_cons]
        exact ⟨this.1, by omega⟩
      · rename_i status retryAfter dur heq
        rw [hA k] at heq
        simp at heq

/-- A call whose every fetch attempt yields a 429 response throws the
`Max retries exceeded` error after exactly `max (MAX_RETRIES - retries) 1`
attempts. -/
theorem makeRequestLoop_429_forever (attempts : Nat → FetchOutcome)
    (f : Nat → Option Nat) (g : Nat → Nat)
    (hA : ∀ n, attempts n = .resp 429 (f n) (g n))
    (k now : Nat) (s : RateState) (retries : Nat) :
    (makeRequestLoop attempts k now s retries).result
      = .error .maxRetriesRateLimit
    ∧ (makeRequestLoop attempts k now s retries).events.length
        = max (MAX_RETRIES - retries) 1 := by
  generalize hn : MAX_RETRIES - retries = n
  induction n generalizing k now s retries with
  | zero =>
      unfold makeRequestLoop
      split
      · rename_i dur heq
        rw [hA k] at heq
        simp at heq
      · rename_i status retryAfter dur heq
        rw [hA k] at heq
        injection heq with h1 h2 h3
        rw [← h1]
        rw [if_pos (by rfl), if_pos (by omega)]
        refine ⟨rfl, ?_⟩
        show (1 : Nat) = max 0 1
        decide
  | succ n ih =>
      unfold makeRequestLoop
      split
      · rename_i dur heq
        rw [hA k] at heq
        simp at heq
      · rename_i status retryAfter dur heq
        rw [hA k] at heq
        injection heq with h1 h2 h3
        rw [← h1]
        rw [if_pos (by rfl)]
        by_cases hceil : MAX_RETRIES ≤ retries + 1
        · rw [if_pos hceil]
          refine ⟨rfl, ?_⟩
          show (1 : Nat) = max (n + 1) 1
          omega
        · rw [if_neg hceil]
          have := ih (k + 1)
            ((rateCheck now s).2 + dur + backoff429 retryAfter retries)
            (issueState now s) (retries + 1) (by omega)
          simp only [withEvent, List.length_cons]
          exact ⟨this.1, by omega⟩

/-- **C6** — the Gateway never retries unboundedly: any call issues at most
`MAX_RETRIES + 1` fetch attempts; a call whose fetch fails with a network
error on every attempt terminates with the rethrown failure after exactly
`MAX_RETRIES` retries (`MAX_RETRIES + 1` attempts); a call answered 429 on
every attempt terminates with the `Max retries exceeded` error after
`MAX_RETRIES` attempts; and every call produces either a returned response
or a thrown error. -/
theorem c6_bounded_retries :
    (∀ (attempts : Nat → FetchOutcome) (now : Nat) (s : RateState),
      (makeRequest attempts now s).events.length ≤ MAX_RETRIES + 1)
    ∧ (∀ (d : Nat → Nat) (now : Nat) (s : RateState),
        (makeRequest (fun n => .netError (d n)) now s).result
          = .error .netFailure
        ∧ (makeRequest (fun n => .netError (d n)) now s).events.length
            = MAX_RETRIES + 1)
    ∧ (∀ (f : Nat → Option Nat) (g : Nat → Nat) (now : Nat) (s : RateState),
        (makeRequest (fun n => .resp 429 (f n) (g n)) now s).result
          = .error .maxRetriesRateLimit
        ∧ (makeRequest (fun n => .resp 429 (f n) (g n)) now s).events.length
            = MAX_RETRIES)
    ∧ (∀ (attempts : Nat → FetchOutcome) (now : Nat) (s : RateState),
        (∃ j, (makeRequest attempts now s).result = .ok j)
        ∨ (∃ e, (makeRequest attempts now s).result = .error e)) := by
  refine ⟨?_, ?_, ?_, ?_⟩
  · intro attempts now s
    have := makeRequestLoop_events_le attempts 0 now s 0
    simpa [makeRequest] using this
  · intro d now s
    have := makeRequestLoop_netError_forever (fun n => .netError (d n)) d
      (fun n => rfl) 0 now s 0
    simpa [makeRequest] using this
  · intro f g now s
    have := makeRequestLoop_429_forever (fun n => .resp 429 (f n) (g n)) f g
      (fun n => rfl) 0 now s 0
    have hM : MAX_RETRIES = 3 := rfl
    simp [makeRequest] at this ⊢
    exact ⟨this.1, by omega⟩
  · intro attempts now s
    rcases h : (makeRequest attempts now s).result with e | j
    · exact .inr ⟨e, rfl⟩
    · exact .inl ⟨j, rfl⟩

/-- **C7** — the rate-window invariant: (i) the counter is reset to 0 (and
the window restarted) whenever `now - windowStart ≥ RATE_LIMIT_WINDOW`,
and the reset permits further requests without waiting; (ii) with the
counter at/above the ceiling inside a live window, the caller sleeps until
the window rolls over — the request proceeds exactly at
`windowStart + RATE_LIMIT_WINDOW` from a zeroed counter — instead of
proceeding; (iii) in every Gateway call, every issued request's counter is
at most the ceiling. -/
theorem c7_rate_window_invariant :
    (∀ (now : Nat) (s : RateState),
      RATE_LIMIT_WINDOW ≤ now - s.windowStart →
      rateCheck now s = (⟨0, now⟩, now))
    ∧ (∀ (now : Nat) (s : RateState),
        s.windowStart ≤ now →
        now - s.windowStart < RATE_LIMIT_WINDOW →
        MAX_REQUESTS_PER_WINDOW ≤ s.requestCount →
        rateCheck now s
          = (⟨0, s.windowStart + RATE_LIMIT_WINDOW⟩,
              s.windowStart + RATE_LIMIT_WINDOW))
    ∧ (∀ (attempts : Nat → FetchOutcome) (k now : Nat) (s : RateState)
        (retries : Nat),
        ∀ ev ∈ (makeRequestLoop attempts k now s retries).events,
          ev.count ≤ MAX_REQUESTS_PER_WINDOW) := by
  refine ⟨?_, ?_, makeRequestLoop_count_le⟩
  · intro now s h
    have hreset : rateReset now s = ⟨0, now⟩ := by
      unfold rateReset
      rw [if_pos h]
    unfold rateCheck
    rw [hreset]
    rw [if_neg (by simp [MAX_REQUESTS_PER_WINDOW])]
  · intro now s h1 h2 h3
    have hreset : rateReset now s = s := by
      unfold rateReset
      rw [if_neg (by omega)]
    have harith : now + (RATE_LIMIT_WINDOW - (now - s.windowStart))
        = s.windowStart + RATE_LIMIT_WINDOW := by omega
    unfold rateCheck
    rw [hreset, if_pos h3, harith]

/-- Witness for C7 at concrete inputs: an expired, fully exhausted window
is reset in place; an exhausted live window sleeps to its rollover; and a
concrete Gateway run's single issued request respects the ceiling. -/
theorem c7_rate_window_invariant_witness :
    rateCheck 300000 ⟨1000, 0⟩ = (⟨0, 300000⟩, 300000)
    ∧ rateCheck 10 ⟨1000, 0⟩ = (⟨0, 300000⟩, 300000)
    ∧ (⟨0, 1⟩ : IssueEvent).count ≤ MAX_REQUESTS_PER_WINDOW := by
  refine ⟨?_, ?_, ?_⟩
  · exact c7_rate_window_invariant.1 300000 ⟨1000, 0⟩ (by decide)
  · exact c7_rate_window_invariant.2.1 10 ⟨1000, 0⟩ (by decide) (by decide)
      (by decide)
  · refine c7_rate_window_invariant.2.2 (fun _ => .resp 200 none 0) 0 0 ⟨0, 0⟩ 0
      ⟨0, 1⟩ ?_
    unfold makeRequestLoop
    simp [rateCheck, rateReset, issueEventAt, MAX_REQUESTS_PER_WINDOW,
      RATE_LIMIT_WINDOW]

/-- One 429 round trip: starting a fresh call (retries = 0) in a state with
room for two requests in the window, a first attempt answered 429 makes the
Gateway sleep `backoff429 retryAfter 0` and retry; a non-429 second
response is returned.  The two issue events are exactly the configured
wait apart (plus the first round trip's duration). -/
theorem makeRequest_429_then_success (attempts : Nat → FetchOutcome)
    (retryAfter0 : Option Nat) (dur0 : Nat)
    (status1 : Nat) (retryAfter1 : Option Nat) (dur1 : Nat)
    (now : Nat) (s : RateState)
    (h0 : attempts 0 = .resp 429 retryAfter0 dur0)
    (h1 : attempts 1 = .resp status1 retryAfter1 dur1)
    (h429 : status1 ≠ 429)
    (hcount : s.requestCount + 1 < MAX_REQUESTS_PER_WINDOW) :
    (makeRequest attempts now s).result = .ok 1
    ∧ ∃ t c1 c2,
        (makeRequest attempts now s).events
          = [⟨t, c1⟩, ⟨t + dur0 + backoff429 retryAfter0 0, c2⟩] := by
  have hM : MAX_REQUESTS_PER_WINDOW = 1000 := rfl
  have hs2 : (issueState now s).requestCount < MAX_REQUESTS_PER_WINDOW := by
    show (rateCheck now s).1.requestCount + 1 < MAX_REQUESTS_PER_WINDOW
    rcases rateCheck_count_cases now s with h | h <;> omega
  have hnowait := rateCheck_no_wait
    ((rateCheck now s).2 + dur0 + backoff429 retryAfter0 0) hs2
  unfold makeRequest
  unfold makeRequestLoop
  split
  · rename_i dur heq
    rw [h0] at heq
    simp at heq
  · rename_i status retryAfter dur heq
    rw [h0] at heq
    injection heq with e1 e2 e3
    subst e1; subst e2; subst e3
    rw [if_pos (by rfl), if_neg (by decide)]
    unfold makeRequestLoop
    split
    · rename_i dur heq
      rw [h1] at heq
      simp at heq
    · rename_i status retryAfter dur heq
      rw [h1] at heq
      injection heq with e1 e2 e3
      subst e1; subst e2; subst e3
      rw [if_neg (by simp [h429])]
      refine ⟨rfl, (rateCheck now s).2, (rateCheck now s).1.requestCount + 1,
        (rateCheck ((rateCheck now s).2 + dur0 + backoff429 retryAfter0 0)
          (issueState now s)).1.requestCount + 1, ?_⟩
      simp only [withEvent, issueEventAt]
      rw [hnowait]

/-- **C9** — for a fresh Gateway call whose first attempt is answered 429
(window not exhausted: counter + 1 below the ceiling): with
`retry-after: ra` present the Gateway waits exactly `ra * 1000` ms after
the first round trip before re-issuing the same request, without the
header it waits the exponential backoff `RETRY_DELAY * 2^0`, and in both
cases the second attempt's non-429 response is returned to the caller. -/
theorem c9_429_backoff (ra dur0 : Nat) (status1 : Nat)
    (retryAfter1 : Option Nat) (dur1 : Nat) (now : Nat) (s : RateState)
    (h429 : status1 ≠ 429)
    (hcount : s.requestCount + 1 < MAX_REQUESTS_PER_WINDOW) :
    ((makeRequest (fun j => if j = 0 then .resp 429 (some ra) dur0
        else .resp status1 retryAfter1 dur1) now s).result = .ok 1
      ∧ ∃ t c1 c2,
        (makeRequest (fun j => if j = 0 then .resp 429 (some ra) dur0
            else .resp status1 retryAfter1 dur1) now s).events
          = [⟨t, c1⟩, ⟨t + dur0 + ra * 1000, c2⟩])
    ∧ ((makeRequest (fun j => if j = 0 then .resp 429 none dur0
        else .resp status1 retryAfter1 dur1) now s).result = .ok 1
      ∧ ∃ t c1 c2,
        (makeRequest (fun j => if j = 0 then .resp 429 none dur0
            else .resp status1 retryAfter1 dur1) now s).events
          = [⟨t, c1⟩, ⟨t + dur0 + RETRY_DELAY * 2 ^ 0, c2⟩]) := by
  constructor
  · have h := makeRequest_429_then_success
      (fun j => if j = 0 then .resp 429 (some ra) dur0
        else .resp status1 retryAfter1 dur1)
      (some ra) dur0 status1 retryAfter1 dur1 now s rfl rfl h429 hcount
    simpa [backoff429] using h
  · have h := makeRequest_429_then_success
      (fun j => if j = 0 then .resp 429 none dur0
        else .resp status1 retryAfter1 dur1)
      none dur0 status1 retryAfter1 dur1 now s rfl rfl h429 hcount
    simpa [backoff429] using h

/-- Witness for C9: a concrete 429 with `retry-after: 2` then a 200. -/
theorem c9_429_backoff_witness :
    ((makeRequest (fun j => if j = 0 then .resp 429 (some 2) 0
        else .resp 200 none 0) 0 ⟨0, 0⟩).result = .ok 1
      ∧ ∃ t c1 c2,
        (makeRequest (fun j => if j = 0 then .resp 429 (some 2) 0
            else .resp 200 none 0) 0 ⟨0, 0⟩).events
          = [⟨t, c1⟩, ⟨t + 0 + 2 * 1000, c2⟩]) :=
  (c9_429_backoff 2 0 200 none 0 0 ⟨0, 0⟩ (by decide) (by decide)).1

/-- **C1 counterexample** — records `[X, Y]` with `X = www.bad.com` (zone
not found) and `Y = www.good.org` (resolvable): initialization exits the
process with code 1; it does not produce a managed set containing `Y`,
although `Y` alone would initialize fine. -/
theorem c1_multi_record_isolation_counterexample :
    initializeDNSRecords none none c1Zones c1RecordsOf
      ["www.bad.com", "www.good.org"] = .exited 1
    ∧ (initializeDNSRecords none none c1Zones c1RecordsOf
        ["www.bad.com", "www.good.org"]
        == .records [⟨"www.good.org", "good.org", "zg", "rg"⟩]) = false
    ∧ initializeDNSRecords none none c1Zones c1RecordsOf ["www.good.org"]
      = .records [⟨"www.good.org", "good.org", "zg", "rg"⟩] := by
  refine ⟨by decide, by decide, by decide⟩

/-- **C1 (amended)** — in multi-record mode, a record whose resolution
fails is not dropped: whenever the first pending record's zone resolution
fails, the per-record `catch` calls `process.exit(1)`, so initialization
terminates the process and no managed set — in particular none containing
the remaining records — is ever returned. -/
theorem c1_resolution_failure_exits (cfZoneId cfRecordId : Option String)
    (zones : ZonesData) (recordsOf : String → RecordsData)
    (recordName : String) (rest : List String)
    (zc rc : List (String × String)) (acc : List DNSRecord)
    (e : ResolveError) (p : List (String × String) × Nat)
    (hz : getZoneId cfZoneId 200 zones (deriveZoneName recordName) zc
      = (.error e, p)) :
    initLoop cfZoneId cfRecordId zones recordsOf (recordName :: rest) zc rc acc
      = .exited 1
    ∧ ∀ dnsRecords,
        initLoop cfZoneId cfRecordId zones recordsOf (recordName :: rest) zc rc acc
          ≠ .records dnsRecords := by
  have hmain : initLoop cfZoneId cfRecordId zones recordsOf
      (recordName :: rest) zc rc acc = .exited 1 := by
    by_cases hlen : (jsSplit '.' recordName).length < 2
    · simp [initLoop, hlen]
    · simp [initLoop, hlen, hz]
  exact ⟨hmain, fun dnsRecords h => by rw [hmain] at h; exact InitOutcome.noConfusion h⟩

/-- Witness for C1 (amended): the two-record scenario of the
counterexample, with the zone-resolution failure discharged concretely. -/
theorem c1_resolution_failure_exits_witness :
    initLoop none none c1Zones c1RecordsOf ["www.bad.com", "www.good.org"] [] [] []
      = .exited 1 :=
  (c1_resolution_failure_exits none none c1Zones c1RecordsOf
    "www.bad.com" ["www.good.org"] [] [] []
    (.zoneNotFound "bad.com") ([], 1) rfl).1

/-- Witness for C4: published `"1.1.1.1"`, observed `"2.2.2.2"` → exactly
one update with the observed content; observed equal → none. -/
theorem c4_reconcile_update_iff_differs_witness :
    reconcileRecord ⟨"www.example.com", "example.com", "z1", "r1"⟩ "2.2.2.2"
      200 ⟨true, [], "1.1.1.1"⟩ = [⟨"z1", "r1", "2.2.2.2"⟩]
    ∧ reconcileRecord ⟨"www.example.com", "example.com", "z1", "r1"⟩ "1.1.1.1"
      200 ⟨true, [], "1.1.1.1"⟩ = [] := by
  constructor
  · exact (c4_reconcile_update_iff_differs ⟨"www.example.com", "example.com", "z1", "r1"⟩
      "2.2.2.2" 200 ⟨true, [], "1.1.1.1"⟩ rfl).2.1 (by decide)
  · exact (c4_reconcile_update_iff_differs ⟨"www.example.com", "example.com", "z1", "r1"⟩
      "1.1.1.1" 200 ⟨true, [], "1.1.1.1"⟩ rfl).1 rfl

end DDNS
